import Mathlib

/-!
Verification of the orchestrator of justinndidit/notification-system.

The Go sources under `src/services/orchestrator` are shallowly embedded as
executable Lean functions.  Effectful calls (database, Redis, RabbitMQ,
remote HTTP fetches) are modelled by an environment record that supplies the
outcome of each call, and each run of a handler or of `EnrichAndPublish`
produces, besides the final database row, an ordered trace of the repository,
broker and cache operations the code performed, exactly in source order.
Timestamps are abstract instants (`Nat`); only their presence/absence and
first-write (COALESCE) behaviour matter to the properties checked here.
-/

namespace NotifSys

/-- Go struct `dtos.UserData` (template substitution variables). -/
structure UserData where
  name : String
  link : String
  deriving Repr, DecidableEq, Inhabited

/-- Go struct `dtos.UserPreferenceData`, the typed shape of the user-service payload. -/
structure UserPreferenceData where
  templateID : String
  userID : String
  emailOptIn : Bool
  pushOptIn : Bool
  dailyLimit : Int
  language : String
  deriving Repr, DecidableEq

/-- Go struct `dtos.TemplateVersion`. -/
structure TemplateVersion where
  id : String
  templateID : String
  version : Int
  subject : String
  title : String
  body : String
  deriving Repr, DecidableEq

/-- Go struct `dtos.TemplateData`, the typed shape of the template-service payload. -/
structure TemplateData where
  id : String
  name : String
  event : String
  channel : List String
  language : String
  isActive : Bool
  versions : List TemplateVersion
  deriving Repr, DecidableEq

/-- The Go zero value of `dtos.UserPreferenceData`. -/
def zeroUserPreferenceData : UserPreferenceData :=
  { templateID := "", userID := "", emailOptIn := false, pushOptIn := false
    dailyLimit := 0, language := "" }

/-- The Go zero value of `dtos.TemplateData`. -/
def zeroTemplateData : TemplateData :=
  { id := "", name := "", event := "", channel := [], language := ""
    isActive := false, versions := [] }

/-- The dynamic `Data interface{}` field of `dtos.HTTPResponse`, as seen
through the orchestrator's `json.Marshal` / `json.Unmarshal` round trip into
the typed struct `α`: Go `nil` round-trips to the zero value of `α`, a
conforming document yields a value of `α`, a non-conforming one makes
`json.Unmarshal` fail. -/
inductive GoJSON (α : Type) where
  | nil : GoJSON α
  | ok (a : α) : GoJSON α
  | bad : GoJSON α
  deriving Repr, DecidableEq

/-- The `json.Marshal`-then-`json.Unmarshal` round trip performed at
orchestrator.go:204-226; `zero` is the zero value of the target struct. -/
def parseJSON {α : Type} (zero : α) : GoJSON α → Option α
  | .nil => some zero
  | .ok a => some a
  | .bad => none

/-- Go struct `dtos.HTTPResponse` specialised to the typed payload `α` (the `Meta`
pointer, always nil in the flows modelled here, is omitted). -/
structure HTTPResponse (α : Type) where
  success : Bool
  data : GoJSON α
  error : String
  message : String
  deriving Repr, DecidableEq

/-- The Go zero value `dtos.HTTPResponse{}`, against which orchestrator.go:146-151
compares the joined fetch results. -/
def zeroHTTPResponse (α : Type) : HTTPResponse α :=
  { success := false, data := .nil, error := "", message := "" }

/-- Embeds `dtos.NotificationPriorityToString` composed with the
`dtos.NotificationPriority(req.Priority)` conversion. -/
def notificationPriorityToString (p : Int) : String :=
  if p = 1 then "low"
  else if p = 2 then "normal"
  else if p = 3 then "high"
  else if p = 4 then "urgent"
  else "normal"

/-- The enriched payload persisted at orchestrator.go:229-233. -/
structure EnrichedPayload where
  userPreferences : UserPreferenceData
  template : TemplateData
  vars : UserData  -- source field name: Variables
  deriving Repr, DecidableEq

/-- Go struct `models.Notification` — the database row.  Identifier-typed columns are
kept as strings; timestamps are abstract instants. -/
structure Notification where
  id : String
  userID : String
  templateID : String
  correlationID : String
  idempotencyKey : Option String
  channel : String
  status : String
  priority : String
  vars : UserData  -- source field name: Variables
  enrichedPayload : Option EnrichedPayload
  enrichedAt : Option Nat
  queuedAt : Option Nat
  sentAt : Option Nat
  deliveredAt : Option Nat
  failedAt : Option Nat
  errorCode : Option String
  errorMessage : Option String
  retryCount : Nat
  maxRetries : Nat
  createdAt : Nat
  updatedAt : Nat
  deletedAt : Option Nat
  deriving Repr, DecidableEq, Inhabited

/-- SQL `COALESCE(col, NOW())` on a phase-timestamp column: first write wins. -/
def coalesce (col : Option Nat) (now : Nat) : Option Nat :=
  match col with
  | some t => some t
  | none => some now

/-- Embeds `NotificationRepository.UpdateStatusWithTimestamp`
(repositories/notification.go:82-128): sets the status and, per the switch at
lines 84-97, COALESCE-writes the phase-timestamp column matched to the new
status; statuses outside the switch update no phase timestamp. -/
def updateStatusWithTimestamp (n : Notification) (status : String) (now : Nat) :
    Notification :=
  let n := { n with status := status, updatedAt := now }
  if status = "enriching" then { n with enrichedAt := coalesce n.enrichedAt now }
  else if status = "queued" then { n with queuedAt := coalesce n.queuedAt now }
  else if status = "sent" then { n with sentAt := coalesce n.sentAt now }
  else if status = "delivered" then { n with deliveredAt := coalesce n.deliveredAt now }
  else if status = "failed" then { n with failedAt := coalesce n.failedAt now }
  else n

/-- Embeds `NotificationRepository.UpdateStatus` (repositories/notification.go:131-133)
delegates to `UpdateStatusWithTimestamp`. -/
def updateStatus (n : Notification) (status : String) (now : Nat) : Notification :=
  updateStatusWithTimestamp n status now

/-- Embeds `NotificationRepository.UpdateEnrichedPayload`
(repositories/notification.go:137-156): stores the payload without changing
the status. -/
def updateEnrichedPayload (n : Notification) (payload : EnrichedPayload) (now : Nat) :
    Notification :=
  { n with enrichedPayload := some payload, updatedAt := now }

/-- Embeds `NotificationRepository.UpdateFailure` (repositories/notification.go:527-550):
status `failed`, error code/message, retry_count increment, COALESCE `failed_at`. -/
def updateFailure (n : Notification) (code msg : String) (now : Nat) : Notification :=
  { n with status := "failed", errorCode := some code, errorMessage := some msg
           retryCount := n.retryCount + 1, failedAt := coalesce n.failedAt now
           updatedAt := now }

/-- Go struct `dtos.NotificationRequest` — the accepted HTTP body. -/
structure NotificationRequest where
  notificationType : String
  userID : String
  templateCode : String
  vars : UserData  -- source field name: Variables
  requestID : String
  priority : Int
  deriving Repr, DecidableEq

/-- One observable operation of a run of `EnrichAndPublish`, in source order.
`getByIdempotencyKey` mirrors `NotificationRepository.GetByIdempotencyKey`
(repositories/notification.go:313-368); it appears in a trace exactly when the
orchestrator calls that repository method.  `storeStatus` is
`storeNotificationStatus` (orchestrator.go:341-359), which writes the JSON
snapshot under `notification:status:{correlationID}` with TTL 24h. -/
inductive Step where
  | createNotif (ok : Bool) : Step
  | getByIdempotencyKey (key : String) : Step
  | createEvent (eventType : String) : Step
  | updateStatus (status : String) : Step
  | updateFailure (code msg : String) : Step
  | updateEnrichedPayload (ok : Bool) : Step
  | publish (routingKey : String) (ok : Bool) : Step
  | storeStatus (correlationID status errMsg : String) : Step
  deriving Repr, DecidableEq

/-- Outcomes of the effectful calls a single `EnrichAndPublish` run performs.
The four `gen*` fields are the successive results of `uuid.New()` at
orchestrator.go:58 and 65-67; `userResp`/`templateResp` are the values the
join at lines 137-153 reads off the two client channels (each client sends
exactly one `dtos.HTTPResponse`); the `*Ok` flags are the error results of
the corresponding database / broker calls whose errors the code branches on. -/
structure OrchEnv where
  genNotifID : String
  genUserID : String
  genTemplateID : String
  genCorrelationID : String
  createOk : Bool
  createErrMsg : String
  userResp : HTTPResponse UserPreferenceData
  templateResp : HTTPResponse TemplateData
  persistEnrichedOk : Bool
  publishOk : Bool
  publishErrMsg : String
  deriving Repr, DecidableEq

/-- Result of a run of `EnrichAndPublish`: the final state of the row the run
inserted (`none` when the insert was rejected, since the run then touches no
row) and the ordered trace of operations performed. -/
structure OrchResult where
  row : Option Notification
  trace : List Step
  deriving Repr, DecidableEq

/-- Embeds `Orchestrator.EnrichAndPublish` (orchestrator.go:52-288), over
`OrchEnv`.  Control flow, literals and operation order follow the source
line by line; abstract instants 0..4 stand for the successive `NOW()` values.
Database calls whose errors the source ignores (`CreateEventSimple`,
`UpdateStatus` to `enriching`/`queued`) are modelled as succeeding, since the
source's behaviour does not branch on them. -/
def enrichAndPublish (env : OrchEnv) (req : NotificationRequest)
    (correlationID idempotencyKey : String) : OrchResult :=
  -- orchestrator.go:63-78 — initial row; UserID/TemplateID/CorrelationID are
  -- fresh `uuid.New()` values, not the request's fields (see the
  -- `//req.UserID` comments in the source).
  let notification : Notification :=
    { id := env.genNotifID
      userID := env.genUserID
      templateID := env.genTemplateID
      correlationID := env.genCorrelationID
      idempotencyKey := some idempotencyKey
      channel := req.notificationType
      status := "pending"
      priority := notificationPriorityToString req.priority
      vars := req.vars
      enrichedPayload := none
      enrichedAt := none, queuedAt := none, sentAt := none
      deliveredAt := none, failedAt := none
      errorCode := none, errorMessage := none
      retryCount := 0, maxRetries := 3
      createdAt := 0, updatedAt := 0, deletedAt := none }
  -- orchestrator.go:81-85 — CreateNotification; on error: log, cache a
  -- "failed" snapshot, return.
  if env.createOk = false then
    { row := none
      trace := [.createNotif false,
                .storeStatus correlationID "failed" env.createErrMsg] }
  else
    -- orchestrator.go:88-95 — created event, transition to enriching.
    let tr0 : List Step :=
      [.createNotif true, .createEvent "created", .updateStatus "enriching"]
    let n1 := updateStatus notification "enriching" 1
    -- orchestrator.go:109-157 — concurrent fetch and join; an empty struct on
    -- a channel becomes a "no ... response received" error (lines 146-151).
    let userErr := env.userResp = zeroHTTPResponse UserPreferenceData
    let tempErr := env.templateResp = zeroHTTPResponse TemplateData
    -- orchestrator.go:160-178 — user failure branch.
    if userErr ∨ env.userResp.success = false then
      let errMsg := if userErr then "no user response received" else env.userResp.error
      { row := some (updateFailure n1 "USER_FETCH_ERROR" errMsg 2)
        trace := tr0 ++ [.updateFailure "USER_FETCH_ERROR" errMsg,
                         .createEvent "failed",
                         .storeStatus correlationID "failed" errMsg] }
    -- orchestrator.go:180-198 — template failure branch.
    else if tempErr ∨ env.templateResp.success = false then
      let errMsg := if tempErr then "no template response received" else env.templateResp.error
      { row := some (updateFailure n1 "TEMPLATE_FETCH_ERROR" errMsg 2)
        trace := tr0 ++ [.updateFailure "TEMPLATE_FETCH_ERROR" errMsg,
                         .createEvent "failed",
                         .storeStatus correlationID "failed" errMsg] }
    else
      -- orchestrator.go:201-214 — parse user preferences.
      match parseJSON zeroUserPreferenceData env.userResp.data with
      | none =>
        { row := some (updateFailure n1 "PARSE_ERROR" "Invalid user data format" 2)
          trace := tr0 ++ [.updateFailure "PARSE_ERROR" "Invalid user data format",
                           .createEvent "failed",
                           .storeStatus correlationID "failed" "Invalid user data format"] }
      | some userPrefs =>
        -- orchestrator.go:216-226 — parse template.
        match parseJSON zeroTemplateData env.templateResp.data with
        | none =>
          { row := some (updateFailure n1 "PARSE_ERROR" "Invalid template format" 2)
            trace := tr0 ++ [.updateFailure "PARSE_ERROR" "Invalid template format",
                             .createEvent "failed",
                             .storeStatus correlationID "failed" "Invalid template format"] }
        | some template =>
          -- orchestrator.go:229-238 — persist the enriched payload; on error:
          -- log and return, recording nothing else.
          if env.persistEnrichedOk = false then
            { row := some n1
              trace := tr0 ++ [.updateEnrichedPayload false] }
          else
            let payload : EnrichedPayload :=
              { userPreferences := userPrefs, template := template, vars := req.vars }
            let n2 := updateEnrichedPayload n1 payload 3
            -- orchestrator.go:241-273 — enriched event, publish with routing
            -- key `notification.{channel}`; on error: QUEUE_ERROR branch.
            let routingKey := "notification." ++ req.notificationType
            if env.publishOk = false then
              { row := some (updateFailure n2 "QUEUE_ERROR" env.publishErrMsg 4)
                trace := tr0 ++ [.updateEnrichedPayload true,
                                 .createEvent "enriched",
                                 .publish routingKey false,
                                 .updateFailure "QUEUE_ERROR" env.publishErrMsg,
                                 .createEvent "failed",
                                 .storeStatus correlationID "failed" env.publishErrMsg] }
            else
              -- orchestrator.go:276-282 — queued status, queued event,
              -- "queued" snapshot.
              let n3 := updateStatus n2 "queued" 4
              { row := some n3
                trace := tr0 ++ [.updateEnrichedPayload true,
                                 .createEvent "enriched",
                                 .publish routingKey true,
                                 .updateStatus "queued",
                                 .createEvent "queued",
                                 .storeStatus correlationID "queued" ""] }

/-- A value stored in Redis together with its TTL in seconds. -/
structure CacheEntry where
  value : String
  ttlSeconds : Nat
  deriving Repr, DecidableEq

/-- The Redis keyspace, newest binding first. -/
abbrev Cache : Type := List (String × CacheEntry)

/-- Redis `GET key` over the model keyspace. -/
def cacheGet (c : Cache) (k : String) : Option String :=
  (c.find? (fun p => p.1 = k)).map (fun p => p.2.value)

/-- Redis plain `SET key value EX ttl` (unconditional overwrite), the command
the handler issues at handlers/notification.go:90. -/
def cacheSet (c : Cache) (k v : String) (ttl : Nat) : Cache :=
  (k, { value := v, ttlSeconds := ttl }) :: c

/-- A Redis write command as issued by the handler: the source only ever uses
the plain `Set`; `setNX` exists in the model so that set-if-absent claims are
expressible. -/
inductive RedisWrite where
  | set (key value : String) (ttlSeconds : Nat) : RedisWrite
  | setNX (key value : String) (ttlSeconds : Nat) : RedisWrite
  deriving Repr, DecidableEq

/-- The detached orchestrator task spawned at handlers/notification.go:101
via `go h.orchestrator.EnrichAndPublish(context.Background(), ...)`.
`ctxDeadline` is the deadline of the context handed to the task:
`context.Background()` carries none. -/
structure SpawnedTask where
  ctxDeadline : Option Nat
  req : NotificationRequest
  correlationID : String
  idempotencyKey : String
  deriving Repr, DecidableEq

/-- Outcomes of the effectful calls inside `HandleNotificationRequest`:
JSON decode and validator results, the two headers (empty string = absent),
the `uuid.New().String()` drawn when the correlation header is absent, and
injected Redis errors (`redisGetErr` is a non-`redis.Nil` GET error). -/
structure HandlerEnv where
  decodeOk : Bool
  body : NotificationRequest
  validateOk : Bool
  idempotencyKeyHeader : String
  correlationIDHeader : String
  genCorrelationID : String
  redisGetErr : Bool
  redisSetErr : Bool
  deriving Repr, DecidableEq

/-- Result of one `HandleNotificationRequest` run: HTTP status, the `data`
fields of the response envelope, the resulting Redis keyspace, the Redis
write commands issued and durably applied, and the spawned orchestrator
task, if any. -/
structure HandlerResult where
  statusCode : Nat
  respCorrelationID : Option String
  respIdempotencyKey : Option String
  respStatusField : Option String
  cache : Cache
  redisWrites : List RedisWrite
  spawned : Option SpawnedTask
  deriving Repr, DecidableEq

/-- The correlation id the handler works with: the `X-Correlation-ID` header,
or a freshly generated UUID when the header is absent
(handlers/notification.go:63-66). -/
def effectiveCorrelationID (env : HandlerEnv) : String :=
  if env.correlationIDHeader = "" then env.genCorrelationID else env.correlationIDHeader

/-- Embeds `NotificationHandler.HandleNotificationRequest`
(handlers/notification.go:32-111) over a Redis keyspace `cache`.  Branches in
source order: decode 400, validate 400, missing idempotency header 400,
Redis GET error 500, duplicate hit 200 echoing the stored correlation id,
Redis SET error 500, else plain `SET {key} {correlationID} EX 24h`, spawn
`EnrichAndPublish` under `context.Background()` and answer 202. -/
def handleNotificationRequest (env : HandlerEnv) (cache : Cache) : HandlerResult :=
  if env.decodeOk = false then
    { statusCode := 400, respCorrelationID := none, respIdempotencyKey := none
      respStatusField := none, cache := cache, redisWrites := [], spawned := none }
  else if env.validateOk = false then
    { statusCode := 400, respCorrelationID := none, respIdempotencyKey := none
      respStatusField := none, cache := cache, redisWrites := [], spawned := none }
  else if env.idempotencyKeyHeader = "" then
    { statusCode := 400, respCorrelationID := none, respIdempotencyKey := none
      respStatusField := none, cache := cache, redisWrites := [], spawned := none }
  else
    let idempotencyKey := env.idempotencyKeyHeader
    let correlationID := effectiveCorrelationID env
    if env.redisGetErr then
      { statusCode := 500, respCorrelationID := none, respIdempotencyKey := none
        respStatusField := none, cache := cache, redisWrites := [], spawned := none }
    else
      -- handlers/notification.go:69-87 — `val` is "" on redis.Nil.
      let val := (cacheGet cache idempotencyKey).getD ""
      if val ≠ "" then
        { statusCode := 200, respCorrelationID := some val
          respIdempotencyKey := some idempotencyKey, respStatusField := none
          cache := cache, redisWrites := [], spawned := none }
      else if env.redisSetErr then
        { statusCode := 500, respCorrelationID := none, respIdempotencyKey := none
          respStatusField := none, cache := cache, redisWrites := [], spawned := none }
      else
        -- handlers/notification.go:90 — plain SET on the raw header key,
        -- value = correlation id, TTL 24h = 86400s.
        { statusCode := 202, respCorrelationID := some correlationID
          respIdempotencyKey := some idempotencyKey, respStatusField := some "processing"
          cache := cacheSet cache idempotencyKey correlationID 86400
          redisWrites := [.set idempotencyKey correlationID 86400]
          spawned := some { ctxDeadline := none, req := env.body
                            correlationID := correlationID
                            idempotencyKey := idempotencyKey } }

/-- Outcomes of the two dependency pings inside `HandleHealthCheck`:
`redisPresent` is `h.redisClient != nil` (handlers/health.go:62). -/
structure HealthEnv where
  dbPingOk : Bool
  redisPresent : Bool
  redisPingOk : Bool
  deriving Repr, DecidableEq

/-- Result of one `HandleHealthCheck` run: HTTP status, the top-level
`status` field, the per-dependency check statuses, and the timeout (seconds)
applied to each ping context. -/
structure HealthResult where
  statusCode : Nat
  statusField : String
  databaseCheck : String
  redisCheck : Option String
  pingTimeoutSeconds : Nat
  deriving Repr, DecidableEq

/-- Embeds `HealthHandler.HandleHealthCheck` (handlers/health.go:28-97).  Each ping
runs under a 5-second context.  The database branch clears `isHealthy` on
failure (line 51); the Redis branch records an unhealthy check but — per the
source — does not touch `isHealthy`.  `isHealthy = false` yields 503
"unhealthy", else 200 "healthy". -/
def handleHealthCheck (env : HealthEnv) : HealthResult :=
  let isHealthy := true
  let (databaseCheck, isHealthy) :=
    if env.dbPingOk then ("healthy", isHealthy) else ("unhealthy", false)
  let redisCheck :=
    if env.redisPresent then
      some (if env.redisPingOk then "healthy" else "unhealthy")
    else none
  if isHealthy = false then
    { statusCode := 503, statusField := "unhealthy", databaseCheck := databaseCheck
      redisCheck := redisCheck, pingTimeoutSeconds := 5 }
  else
    { statusCode := 200, statusField := "healthy", databaseCheck := databaseCheck
      redisCheck := redisCheck, pingTimeoutSeconds := 5 }

/-! ### Concrete inputs used by counterexamples and witnesses -/

/-- The e-mail request of spec scenario S1. -/
def reqEmail : NotificationRequest :=
  { notificationType := "email", userID := "u-1", templateCode := "t-1"
    vars := { name := "A", link := "https://x" }, requestID := "r1", priority := 2 }

/-- User preferences with `email_opt_in:false` (spec scenario S3). -/
def prefsOptOut : UserPreferenceData :=
  { templateID := "t-1", userID := "u-1", emailOptIn := false, pushOptIn := false
    dailyLimit := 100, language := "en" }

/-- A template advertising an e-mail channel and one version. -/
def tmplEmail : TemplateData :=
  { id := "t-1", name := "welcome", event := "signup", channel := ["email"]
    language := "en", isActive := true
    versions := [{ id := "v1", templateID := "t-1", version := 1, subject := "Hi"
                   title := "Hi", body := "Hello" }] }

/-- Orchestrator environment: both fetches succeed (`success=true`, payloads
parse), but the user has opted out of e-mail; all local effects succeed. -/
def envOptOut : OrchEnv :=
  { genNotifID := "nid-1", genUserID := "gen-user-1", genTemplateID := "gen-tmpl-1"
    genCorrelationID := "gen-corr-1", createOk := true, createErrMsg := ""
    userResp := { success := true, data := .ok prefsOptOut, error := "", message := "ok" }
    templateResp := { success := true, data := .ok tmplEmail, error := "", message := "ok" }
    persistEnrichedOk := true, publishOk := true, publishErrMsg := "" }

/-- Orchestrator environment: the initial insert is rejected as a duplicate
idempotency key (the error `CreateNotification` returns at
repositories/notification.go:69). -/
def envDupKey : OrchEnv :=
  { genNotifID := "nid-3", genUserID := "gen-user-3", genTemplateID := "gen-tmpl-3"
    genCorrelationID := "gen-corr-3", createOk := false
    createErrMsg := "duplicate notification with idempotency key"
    userResp := { success := true, data := .ok prefsOptOut, error := "", message := "ok" }
    templateResp := { success := true, data := .ok tmplEmail, error := "", message := "ok" }
    persistEnrichedOk := true, publishOk := true, publishErrMsg := "" }

/-- Orchestrator environment: insert succeeds, then the user fetch fails
(envelope `success=false` with an error message). -/
def envUserFail : OrchEnv :=
  { genNotifID := "nid-4", genUserID := "gen-user-4", genTemplateID := "gen-tmpl-4"
    genCorrelationID := "gen-corr-4", createOk := true, createErrMsg := ""
    userResp := { success := false, data := .nil, error := "user service down", message := "m" }
    templateResp := { success := true, data := .ok tmplEmail, error := "", message := "ok" }
    persistEnrichedOk := true, publishOk := true, publishErrMsg := "" }

/-- Orchestrator environment: everything succeeds up to persisting the
enriched payload, which fails. -/
def envPersistFail : OrchEnv :=
  { genNotifID := "nid-10", genUserID := "gen-user-10", genTemplateID := "gen-tmpl-10"
    genCorrelationID := "gen-corr-10", createOk := true, createErrMsg := ""
    userResp := { success := true, data := .ok prefsOptOut, error := "", message := "ok" }
    templateResp := { success := true, data := .ok tmplEmail, error := "", message := "ok" }
    persistEnrichedOk := false, publishOk := true, publishErrMsg := "" }

/-- Handler environment: a valid request with key `k1`, correlation header
`c1`, and a healthy Redis. -/
def envMiss : HandlerEnv :=
  { decodeOk := true, body := reqEmail, validateOk := true
    idempotencyKeyHeader := "k1", correlationIDHeader := "c1"
    genCorrelationID := "gen-c1", redisGetErr := false, redisSetErr := false }

/-! ### C1 — channel validation after successful fetches -/

/-- C1, counterexample.  Both remote fetches return `success=true` envelopes
and the fetched preferences have `email_opt_in:false` for an e-mail request
(`prefsOptOut.emailOptIn = false`), yet the run ends with the row `queued`
(not `failed`, no error code) and a broker message published on
`notification.email` — refuting the claim that such a run records
`USER_FETCH_ERROR`/`TEMPLATE_FETCH_ERROR` and publishes nothing. -/
theorem optOut_run_publishes_counterexample :
    prefsOptOut.emailOptIn = false ∧
    (enrichAndPublish envOptOut reqEmail "corr-1" "k1").row.map Notification.status
      = some "queued" ∧
    (enrichAndPublish envOptOut reqEmail "corr-1" "k1").row.map Notification.errorCode
      = some none ∧
    Step.publish "notification.email" true
      ∈ (enrichAndPublish envOptOut reqEmail "corr-1" "k1").trace := by
  decide

/-- C1, amended.  `EnrichAndPublish` performs no opt-in or template-version
validation: whenever both envelopes report `success=true`, the payloads parse
and the local persist/publish steps succeed, the run publishes one broker
message on `notification.{channel}` and marks the row `queued`, whatever the
fetched preferences and template versions say, and no failure of any error
code is recorded. -/
theorem enrichAndPublish_no_channel_validation (env : OrchEnv)
    (req : NotificationRequest) (corr idem : String)
    (hcreate : env.createOk = true)
    (huser : env.userResp.success = true)
    (hudata : env.userResp.data ≠ GoJSON.bad)
    (htmpl : env.templateResp.success = true)
    (htdata : env.templateResp.data ≠ GoJSON.bad)
    (hpersist : env.persistEnrichedOk = true)
    (hpub : env.publishOk = true) :
    (enrichAndPublish env req corr idem).row.map Notification.status = some "queued" ∧
    Step.publish ("notification." ++ req.notificationType) true
      ∈ (enrichAndPublish env req corr idem).trace ∧
    ∀ code msg, Step.updateFailure code msg ∉ (enrichAndPublish env req corr idem).trace := by
  obtain ⟨gN, gU, gT, gC, cOk, cMsg, ⟨us, ud, ue, um⟩, ⟨ts, td, te, tm⟩, pOk, pubOk, pubMsg⟩ := env
  simp only at hcreate huser hudata htmpl htdata hpersist hpub
  subst hcreate huser htmpl hpersist hpub
  cases ud with
  | bad => exact absurd rfl hudata
  | nil =>
    cases td with
    | bad => exact absurd rfl htdata
    | nil =>
      simp [enrichAndPublish, zeroHTTPResponse, parseJSON, updateStatus,
            updateStatusWithTimestamp, updateEnrichedPayload, coalesce]
    | ok b =>
      simp [enrichAndPublish, zeroHTTPResponse, parseJSON, updateStatus,
            updateStatusWithTimestamp, updateEnrichedPayload, coalesce]
  | ok a =>
    cases td with
    | bad => exact absurd rfl htdata
    | nil =>
      simp [enrichAndPublish, zeroHTTPResponse, parseJSON, updateStatus,
            updateStatusWithTimestamp, updateEnrichedPayload, coalesce]
    | ok b =>
      simp [enrichAndPublish, zeroHTTPResponse, parseJSON, updateStatus,
            updateStatusWithTimestamp, updateEnrichedPayload, coalesce]

/-- C1 witness: the amended theorem applied to the concrete opt-out run. -/
theorem enrichAndPublish_no_channel_validation_witness :
    (enrichAndPublish envOptOut reqEmail "corr-1" "k1").row.map Notification.status
      = some "queued" ∧
    Step.publish ("notification." ++ reqEmail.notificationType) true
      ∈ (enrichAndPublish envOptOut reqEmail "corr-1" "k1").trace ∧
    Step.updateFailure "USER_FETCH_ERROR" "user opted out"
      ∉ (enrichAndPublish envOptOut reqEmail "corr-1" "k1").trace :=
  have h := enrichAndPublish_no_channel_validation envOptOut reqEmail "corr-1" "k1"
    (by decide) (by decide) (by decide) (by decide) (by decide) (by decide) (by decide)
  ⟨h.1, h.2.1, h.2.2 "USER_FETCH_ERROR" "user opted out"⟩

/-! ### C2 — idempotency cache write in the HTTP handler -/

/-- C2, counterexample.  On a cache miss with key `k1` the handler issues
exactly one plain `SET k1 c1 EX 86400` — an unconditional set on the raw
header key.  No entry is written under `idempotency:k1`, and the single
write is not a `SET NX` — refuting the claimed key format and set-if-absent
semantics. -/
theorem handler_cache_write_counterexample :
    (handleNotificationRequest envMiss []).redisWrites
      = [RedisWrite.set "k1" "c1" 86400] ∧
    cacheGet (handleNotificationRequest envMiss []).cache "idempotency:k1" = none ∧
    (handleNotificationRequest envMiss []).statusCode = 202 := by
  decide

/-- C2, amended.  On a cache miss the handler writes the entry under the raw
idempotency key (not under `idempotency:{key}`) with value the correlation id and
TTL 24 hours, using a single plain unconditional `SET` (no `NX`); there is no
lost-race fallback — a Redis `SET` error instead produces a 500 response with
no spawned task. -/
theorem handler_cache_write_on_miss (env : HandlerEnv) (cache : Cache)
    (hd : env.decodeOk = true) (hv : env.validateOk = true)
    (hk : env.idempotencyKeyHeader ≠ "")
    (hg : env.redisGetErr = false)
    (hmiss : cacheGet cache env.idempotencyKeyHeader = none) :
    (env.redisSetErr = false →
      (handleNotificationRequest env cache).statusCode = 202 ∧
      (handleNotificationRequest env cache).redisWrites
        = [RedisWrite.set env.idempotencyKeyHeader (effectiveCorrelationID env) 86400] ∧
      cacheGet (handleNotificationRequest env cache).cache env.idempotencyKeyHeader
        = some (effectiveCorrelationID env)) ∧
    (env.redisSetErr = true →
      (handleNotificationRequest env cache).statusCode = 500 ∧
      (handleNotificationRequest env cache).spawned = none ∧
      (handleNotificationRequest env cache).redisWrites = []) := by
  obtain ⟨dOk, body, vOk, keyH, corrH, genC, gErr, sErr⟩ := env
  simp only at hd hv hk hg hmiss
  subst hd hv hg
  simp only [cacheGet, Option.map_eq_none'] at hmiss
  cases sErr <;>
    simp [handleNotificationRequest, effectiveCorrelationID, cacheGet, cacheSet,
          hk, hmiss]

/-- C2 witness: the amended theorem applied to the concrete miss run, its
set-success implication discharged there. -/
theorem handler_cache_write_on_miss_witness :
    (handleNotificationRequest envMiss []).statusCode = 202 ∧
    (handleNotificationRequest envMiss []).redisWrites
      = [RedisWrite.set envMiss.idempotencyKeyHeader (effectiveCorrelationID envMiss) 86400] ∧
    cacheGet (handleNotificationRequest envMiss []).cache envMiss.idempotencyKeyHeader
      = some (effectiveCorrelationID envMiss) :=
  (handler_cache_write_on_miss envMiss [] (by decide) (by decide) (by decide)
    (by decide) (by decide)).1 (by decide)

/-! ### C3 — duplicate idempotency key at insert time -/

/-- C3, counterexample.  When `CreateNotification` rejects the insert with
the duplicate-idempotency-key error, the run's whole trace is
`[createNotif false, storeStatus "c3" "failed" …]`: the orchestrator never
calls `GetByIdempotencyKey` (no existing row is loaded, `row = none`), and it
additionally writes a `failed` status snapshot to the cache — refuting the
claim that the existing row is loaded and treated as the canonical result. -/
theorem duplicate_insert_counterexample :
    (enrichAndPublish envDupKey reqEmail "c3" "k3").trace
      = [Step.createNotif false,
         Step.storeStatus "c3" "failed" "duplicate notification with idempotency key"] ∧
    Step.getByIdempotencyKey "k3"
      ∉ (enrichAndPublish envDupKey reqEmail "c3" "k3").trace ∧
    (enrichAndPublish envDupKey reqEmail "c3" "k3").row = none := by
  decide

/-- C3, amended.  When the initial insert is rejected, `EnrichAndPublish`
does not load the existing row by key: it writes a `failed` status snapshot
for the correlation id to the cache (with the insert error message) and
returns, publishing no broker message and appending no NotificationEvent. -/
theorem duplicate_insert_behavior (env : OrchEnv) (req : NotificationRequest)
    (corr idem : String) (hcreate : env.createOk = false) :
    (enrichAndPublish env req corr idem).row = none ∧
    (enrichAndPublish env req corr idem).trace
      = [Step.createNotif false, Step.storeStatus corr "failed" env.createErrMsg] ∧
    (∀ k, Step.getByIdempotencyKey k ∉ (enrichAndPublish env req corr idem).trace) ∧
    (∀ rk ok, Step.publish rk ok ∉ (enrichAndPublish env req corr idem).trace) ∧
    (∀ e, Step.createEvent e ∉ (enrichAndPublish env req corr idem).trace) := by
  obtain ⟨gN, gU, gT, gC, cOk, cMsg, uresp, tresp, pOk, pubOk, pubMsg⟩ := env
  simp only at hcreate
  subst hcreate
  refine ⟨by simp [enrichAndPublish], by simp [enrichAndPublish], ?_, ?_, ?_⟩ <;>
    intro _ <;> simp [enrichAndPublish]

/-- C3 witness: the amended theorem applied to the concrete duplicate-key
run, its quantified conjuncts instantiated there. -/
theorem duplicate_insert_behavior_witness :
    (enrichAndPublish envDupKey reqEmail "c3b" "k3b").row = none ∧
    (enrichAndPublish envDupKey reqEmail "c3b" "k3b").trace
      = [Step.createNotif false,
         Step.storeStatus "c3b" "failed" envDupKey.createErrMsg] ∧
    Step.getByIdempotencyKey "k3b"
      ∉ (enrichAndPublish envDupKey reqEmail "c3b" "k3b").trace ∧
    Step.publish "notification.email" true
      ∉ (enrichAndPublish envDupKey reqEmail "c3b" "k3b").trace ∧
    Step.createEvent "created" ∉ (enrichAndPublish envDupKey reqEmail "c3b" "k3b").trace :=
  have h := duplicate_insert_behavior envDupKey reqEmail "c3b" "k3b" (by decide)
  ⟨h.1, h.2.1, h.2.2.1 "k3b", h.2.2.2.1 "notification.email" true, h.2.2.2.2 "created"⟩

/-! ### C4 — when `enriched_at` is written -/

/-- C4, counterexample.  A run whose user fetch fails after the
`pending → enriching` transition ends `failed` with no `EnrichedPayload`,
yet `enriched_at` is set (to the instant of the `enriching` status update):
`UpdateStatusWithTimestamp` pairs the status `enriching` with the column
`enriched_at`, so the timestamp is written on entering the phase, not on
success — refuting the claimed iff. -/
theorem enrichedAt_set_on_failed_run_counterexample :
    (enrichAndPublish envUserFail reqEmail "c4" "k4").row.map
        (fun n => (n.status, n.enrichedAt, n.enrichedPayload))
      = some ("failed", some 1, none) := by
  decide

/-- C4, amended.  `enriched_at` is COALESCE-written by the very
`pending → enriching` status update (`UpdateStatusWithTimestamp` maps status
`enriching` to column `enriched_at`), so every run whose insert succeeded —
enrichment succeeding or not — leaves `enriched_at` set. -/
theorem enrichedAt_set_on_enriching_entry (env : OrchEnv)
    (req : NotificationRequest) (corr idem : String)
    (hcreate : env.createOk = true) :
    (∀ n now, (updateStatusWithTimestamp n "enriching" now).enrichedAt
        = coalesce n.enrichedAt now) ∧
    ∀ n, (enrichAndPublish env req corr idem).row = some n →
      n.enrichedAt.isSome = true := by
  constructor
  · intro n now
    simp [updateStatusWithTimestamp]
  · obtain ⟨gN, gU, gT, gC, cOk, cMsg, ⟨us, ud, ue, um⟩, ⟨ts, td, te, tm⟩,
      pOk, pubOk, pubMsg⟩ := env
    simp only at hcreate
    subst hcreate
    intro n hn
    cases us <;> cases ts <;> cases pOk <;> cases pubOk <;> cases ud <;> cases td <;>
      simp [enrichAndPublish, zeroHTTPResponse, parseJSON, updateStatus,
            updateStatusWithTimestamp, updateFailure, updateEnrichedPayload,
            coalesce] at hn <;>
      (obtain ⟨rfl⟩ := hn; rfl)

/-- C4 witness: the amended theorem applied to the concrete failed-fetch
run, its quantified conjuncts instantiated there. -/
theorem enrichedAt_set_on_enriching_entry_witness :
    (updateStatusWithTimestamp default "enriching" 7).enrichedAt
      = coalesce (default : Notification).enrichedAt 7 ∧
    ((enrichAndPublish envUserFail reqEmail "c4" "k4").row.getD default).enrichedAt.isSome
      = true :=
  have h := enrichedAt_set_on_enriching_entry envUserFail reqEmail "c4" "k4" (by decide)
  ⟨h.1 default 7,
   h.2 ((enrichAndPublish envUserFail reqEmail "c4" "k4").row.getD default) (by decide)⟩

/-! ### C5 — back-to-back duplicate submissions -/

/-- C5, confirmed.  Two back-to-back submissions with the same
`X-Idempotency-Key`: the first (a cache miss) answers 202 and caches its
correlation id; the second hits the cache, answers 200 with the same
correlation id, spawns no orchestrator task, issues no Redis write, and
leaves the keyspace unchanged — so no new record can be created. -/
theorem duplicate_submission_same_correlation (env1 env2 : HandlerEnv)
    (cache : Cache) (key : String)
    (h1d : env1.decodeOk = true) (h1v : env1.validateOk = true)
    (h1k : env1.idempotencyKeyHeader = key) (hkey : key ≠ "")
    (h1g : env1.redisGetErr = false) (h1s : env1.redisSetErr = false)
    (hmiss : cacheGet cache key = none)
    (hcorr : effectiveCorrelationID env1 ≠ "")
    (h2d : env2.decodeOk = true) (h2v : env2.validateOk = true)
    (h2k : env2.idempotencyKeyHeader = key)
    (h2g : env2.redisGetErr = false) :
    (handleNotificationRequest env1 cache).statusCode = 202 ∧
    (handleNotificationRequest env2 (handleNotificationRequest env1 cache).cache).statusCode
      = 200 ∧
    (handleNotificationRequest env2 (handleNotificationRequest env1 cache).cache).respCorrelationID
      = (handleNotificationRequest env1 cache).respCorrelationID ∧
    (handleNotificationRequest env2 (handleNotificationRequest env1 cache).cache).spawned
      = none ∧
    (handleNotificationRequest env2 (handleNotificationRequest env1 cache).cache).redisWrites
      = [] ∧
    (handleNotificationRequest env2 (handleNotificationRequest env1 cache).cache).cache
      = (handleNotificationRequest env1 cache).cache := by
  obtain ⟨d1, b1, v1, k1, c1, g1, ge1, se1⟩ := env1
  obtain ⟨d2, b2, v2, k2, c2, g2, ge2, se2⟩ := env2
  simp only at h1d h1v h1k h1g h1s hmiss hcorr h2d h2v h2k h2g
  subst h1d h1v h1k h1g h1s h2d h2v h2k h2g
  simp only [cacheGet, Option.map_eq_none'] at hmiss
  simp only [effectiveCorrelationID] at hcorr
  simp [handleNotificationRequest, effectiveCorrelationID, cacheGet, cacheSet,
        hkey, hmiss, hcorr]

/-- C5 witness: the theorem applied to two concrete identical submissions. -/
theorem duplicate_submission_same_correlation_witness :
    (handleNotificationRequest envMiss []).statusCode = 202 ∧
    (handleNotificationRequest envMiss (handleNotificationRequest envMiss []).cache).statusCode
      = 200 ∧
    (handleNotificationRequest envMiss (handleNotificationRequest envMiss []).cache).respCorrelationID
      = (handleNotificationRequest envMiss []).respCorrelationID ∧
    (handleNotificationRequest envMiss (handleNotificationRequest envMiss []).cache).spawned
      = none ∧
    (handleNotificationRequest envMiss (handleNotificationRequest envMiss []).cache).redisWrites
      = [] ∧
    (handleNotificationRequest envMiss (handleNotificationRequest envMiss []).cache).cache
      = (handleNotificationRequest envMiss []).cache :=
  duplicate_submission_same_correlation envMiss envMiss [] "k1"
    (by decide) (by decide) (by decide) (by decide) (by decide) (by decide)
    (by decide) (by decide) (by decide) (by decide) (by decide) (by decide)

/-! ### C6 — queued only after publish; payload persisted before publish -/

/-- C6, confirmed.  In every run of `EnrichAndPublish`: (1) the status
`queued` is written only when the broker publish succeeded, and then the
trace is exactly the success trace, in which the `enriched_payload` persist
precedes the publish and the publish precedes the `queued` status write;
(2) whenever any publish is attempted, the first four operations were the
insert, the `created` event, the `enriching` update and the successful
payload persist; (3) every row the orchestrator leaves in status `queued`
carries a non-null `enriched_payload`. -/
theorem queued_only_after_publish (env : OrchEnv) (req : NotificationRequest)
    (corr idem : String) :
    (Step.updateStatus "queued" ∈ (enrichAndPublish env req corr idem).trace →
      env.publishOk = true ∧
      (enrichAndPublish env req corr idem).trace
        = [Step.createNotif true, Step.createEvent "created",
           Step.updateStatus "enriching", Step.updateEnrichedPayload true,
           Step.createEvent "enriched",
           Step.publish ("notification." ++ req.notificationType) true,
           Step.updateStatus "queued", Step.createEvent "queued",
           Step.storeStatus corr "queued" ""]) ∧
    (∀ rk ok, Step.publish rk ok ∈ (enrichAndPublish env req corr idem).trace →
      ((enrichAndPublish env req corr idem).trace.take 4)
        = [Step.createNotif true, Step.createEvent "created",
           Step.updateStatus "enriching", Step.updateEnrichedPayload true]) ∧
    (∀ n, (enrichAndPublish env req corr idem).row = some n →
      n.status = "queued" → n.enrichedPayload.isSome = true) := by
  obtain ⟨gN, gU, gT, gC, cOk, cMsg, ⟨us, ud, ue, um⟩, ⟨ts, td, te, tm⟩,
    pOk, pubOk, pubMsg⟩ := env
  cases cOk with
  | false =>
    refine ⟨?_, ?_, ?_⟩ <;> simp [enrichAndPublish]
  | true =>
    cases us with
    | false =>
      refine ⟨?_, ?_, ?_⟩ <;>
        simp [enrichAndPublish, zeroHTTPResponse, updateStatus,
              updateStatusWithTimestamp, updateFailure, coalesce]
    | true =>
      cases ts with
      | false =>
        refine ⟨?_, ?_, ?_⟩ <;>
          simp [enrichAndPublish, zeroHTTPResponse, updateStatus,
                updateStatusWithTimestamp, updateFailure, coalesce]
      | true =>
        cases ud <;> cases td <;> cases pOk <;> cases pubOk <;>
          refine ⟨?_, ?_, ?_⟩ <;>
          simp [enrichAndPublish, zeroHTTPResponse, parseJSON, updateStatus,
                updateStatusWithTimestamp, updateFailure, updateEnrichedPayload,
                coalesce]

/-- C6 witness: the theorem instantiated on the concrete successful run,
with each implication discharged there. -/
theorem queued_only_after_publish_witness :
    (envOptOut.publishOk = true ∧
      (enrichAndPublish envOptOut reqEmail "corr-1" "k1").trace
        = [Step.createNotif true, Step.createEvent "created",
           Step.updateStatus "enriching", Step.updateEnrichedPayload true,
           Step.createEvent "enriched",
           Step.publish ("notification." ++ reqEmail.notificationType) true,
           Step.updateStatus "queued", Step.createEvent "queued",
           Step.storeStatus "corr-1" "queued" ""]) ∧
    ((enrichAndPublish envOptOut reqEmail "corr-1" "k1").trace.take 4
        = [Step.createNotif true, Step.createEvent "created",
           Step.updateStatus "enriching", Step.updateEnrichedPayload true]) ∧
    ((enrichAndPublish envOptOut reqEmail "corr-1" "k1").row.getD default).enrichedPayload.isSome
      = true :=
  ⟨(queued_only_after_publish envOptOut reqEmail "corr-1" "k1").1 (by decide),
   (queued_only_after_publish envOptOut reqEmail "corr-1" "k1").2.1
      ("notification." ++ reqEmail.notificationType) true (by decide),
   (queued_only_after_publish envOptOut reqEmail "corr-1" "k1").2.2
      ((enrichAndPublish envOptOut reqEmail "corr-1" "k1").row.getD default)
      (by decide) (by decide)⟩

/-! ### C7 — orchestration deadline and TIMEOUT -/

/-- C7, counterexample.  An accepted request is answered 202 and the spawned
orchestrator task carries a context with no deadline at all
(`context.Background()` at handlers/notification.go:101) — refuting the
claimed default 30-second end-to-end deadline and the TIMEOUT failure path. -/
theorem spawned_task_has_no_deadline_counterexample :
    (handleNotificationRequest envMiss []).statusCode = 202 ∧
    (handleNotificationRequest envMiss []).spawned.map SpawnedTask.ctxDeadline
      = some none := by
  decide

set_option maxHeartbeats 4000000 in
/-- C7, amended.  Every orchestrator task is spawned under
`context.Background()`, hence with no deadline, and no run of
`EnrichAndPublish` can ever record the error code `TIMEOUT`: neither in the
final row nor as any `UpdateFailure` call in the trace (the only codes the
source writes are USER_FETCH_ERROR, TEMPLATE_FETCH_ERROR, PARSE_ERROR and
QUEUE_ERROR). -/
theorem no_deadline_no_timeout_code :
    (∀ env cache t, (handleNotificationRequest env cache).spawned = some t →
        t.ctxDeadline = none) ∧
    (∀ env req corr idem n, (enrichAndPublish env req corr idem).row = some n →
        n.errorCode ≠ some "TIMEOUT") ∧
    (∀ env req corr idem code msg,
        Step.updateFailure code msg ∈ (enrichAndPublish env req corr idem).trace →
        code ≠ "TIMEOUT") := by
  refine ⟨?_, ?_, ?_⟩
  · intro env cache t ht
    obtain ⟨dOk, body, vOk, keyH, corrH, genC, gErr, sErr⟩ := env
    cases dOk <;> cases vOk <;> cases gErr <;> cases sErr <;>
      revert ht <;>
      simp only [handleNotificationRequest, effectiveCorrelationID, cacheGet] <;>
      (repeat' split) <;> intro ht <;>
      first
        | exact Option.noConfusion ht
        | (replace ht := Option.some.inj ht; subst ht; rfl)
  · intro env req corr idem n hn
    obtain ⟨gN, gU, gT, gC, cOk, cMsg, ⟨us, ud, ue, um⟩, ⟨ts, td, te, tm⟩,
      pOk, pubOk, pubMsg⟩ := env
    cases cOk <;> cases us <;> cases ts <;> cases pOk <;> cases pubOk <;>
      cases ud <;> cases td <;>
      simp [enrichAndPublish, zeroHTTPResponse, parseJSON, updateStatus,
            updateStatusWithTimestamp, updateFailure, updateEnrichedPayload,
            coalesce] at hn <;>
      (obtain ⟨rfl⟩ := hn; simp)
  · intro env req corr idem code msg hmem
    obtain ⟨gN, gU, gT, gC, cOk, cMsg, ⟨us, ud, ue, um⟩, ⟨ts, td, te, tm⟩,
      pOk, pubOk, pubMsg⟩ := env
    cases cOk <;> cases us <;> cases ts <;> cases pOk <;> cases pubOk <;>
      cases ud <;> cases td <;>
      revert hmem <;>
      simp [enrichAndPublish, zeroHTTPResponse, parseJSON] <;>
      (rintro rfl h; decide)

/-- C7 witness: each conjunct of the amended theorem applied at a concrete
input, discharging its hypothesis there. -/
theorem no_deadline_no_timeout_code_witness :
    ({ ctxDeadline := none, req := reqEmail, correlationID := "c1",
       idempotencyKey := "k1" } : SpawnedTask).ctxDeadline = none ∧
    ((enrichAndPublish envUserFail reqEmail "c4" "k4").row.getD default).errorCode
      ≠ some "TIMEOUT" ∧
    "USER_FETCH_ERROR" ≠ "TIMEOUT" :=
  ⟨no_deadline_no_timeout_code.1 envMiss []
      { ctxDeadline := none, req := reqEmail, correlationID := "c1"
        idempotencyKey := "k1" } (by decide),
   no_deadline_no_timeout_code.2.1 envUserFail reqEmail "c4" "k4"
      ((enrichAndPublish envUserFail reqEmail "c4" "k4").row.getD default) (by decide),
   no_deadline_no_timeout_code.2.2 envUserFail reqEmail "c4" "k4"
      "USER_FETCH_ERROR" "user service down" (by decide)⟩

/-! ### C8 — health check result when only the cache ping fails -/

/-- C8: evaluation of `HandleHealthCheck` at the failing input.  With the
database ping succeeding and the Redis ping failing, the handler answers
HTTP 200 with top-level status "healthy" even though its own `checks.redis`
reports "unhealthy": the Redis failure branch (handlers/health.go:67-73)
builds the unhealthy check but — unlike the symmetric database branch at
line 51 — never clears `isHealthy`, so the claimed 503 is never produced. -/
theorem health_redis_failure_returns_healthy :
    handleHealthCheck { dbPingOk := true, redisPresent := true, redisPingOk := false }
      = { statusCode := 200, statusField := "healthy", databaseCheck := "healthy"
          redisCheck := some "unhealthy", pingTimeoutSeconds := 5 } ∧
    handleHealthCheck { dbPingOk := false, redisPresent := true, redisPingOk := true }
      = { statusCode := 503, statusField := "unhealthy", databaseCheck := "unhealthy"
          redisCheck := some "healthy", pingTimeoutSeconds := 5 } := by
  decide

/-! ### C9 — stored identifiers are freshly generated UUIDs -/

/-- C9, confirmed.  Every row a run of `EnrichAndPublish` persists carries,
in its `UserID`, `TemplateID` and `CorrelationID` columns, the three fresh
`uuid.New()` values drawn at orchestrator.go:65-67 — not the request's
`user_id`/`template_code` nor the correlation id the HTTP response carried;
under the freshness of the generated UUIDs the stored `CorrelationID`
therefore differs from the correlation id the client received. -/
theorem stored_ids_freshly_generated (env : OrchEnv) (req : NotificationRequest)
    (corr idem : String) (n : Notification)
    (hrow : (enrichAndPublish env req corr idem).row = some n)
    (hfresh : env.genCorrelationID ≠ corr) :
    n.userID = env.genUserID ∧ n.templateID = env.genTemplateID ∧
    n.correlationID = env.genCorrelationID ∧ n.correlationID ≠ corr := by
  obtain ⟨gN, gU, gT, gC, cOk, cMsg, ⟨us, ud, ue, um⟩, ⟨ts, td, te, tm⟩,
    pOk, pubOk, pubMsg⟩ := env
  simp only at hfresh ⊢
  cases cOk <;> cases us <;> cases ts <;> cases pOk <;> cases pubOk <;>
    cases ud <;> cases td <;>
    simp [enrichAndPublish, zeroHTTPResponse, parseJSON, updateStatus,
          updateStatusWithTimestamp, updateFailure, updateEnrichedPayload,
          coalesce] at hrow <;>
    (obtain ⟨rfl⟩ := hrow; exact ⟨rfl, rfl, rfl, hfresh⟩)

/-- C9 witness: the theorem applied to the concrete successful run, whose
stored correlation id `gen-corr-1` differs from the received `corr-1`. -/
theorem stored_ids_freshly_generated_witness :
    ((enrichAndPublish envOptOut reqEmail "corr-1" "k1").row.getD default).userID
      = envOptOut.genUserID ∧
    ((enrichAndPublish envOptOut reqEmail "corr-1" "k1").row.getD default).templateID
      = envOptOut.genTemplateID ∧
    ((enrichAndPublish envOptOut reqEmail "corr-1" "k1").row.getD default).correlationID
      = envOptOut.genCorrelationID ∧
    ((enrichAndPublish envOptOut reqEmail "corr-1" "k1").row.getD default).correlationID
      ≠ "corr-1" :=
  stored_ids_freshly_generated envOptOut reqEmail "corr-1" "k1"
    ((enrichAndPublish envOptOut reqEmail "corr-1" "k1").row.getD default)
    (by decide) (by decide)

/-! ### C10 — silent return when persisting the enriched payload fails -/

/-- C10, confirmed.  When `UpdateEnrichedPayload` fails, `EnrichAndPublish`
returns at once (orchestrator.go:235-238): the whole trace is the insert, the
`created` event and the `enriching` update followed by the failed persist —
no `UpdateFailure`, no `failed` event, no cache snapshot, no publish — and
the row is left in status `enriching` with no error code, no error message,
no `failed_at` and a null `enriched_payload`. -/
theorem persist_enriched_failure_is_silent (env : OrchEnv)
    (req : NotificationRequest) (corr idem : String)
    (hcreate : env.createOk = true)
    (huser : env.userResp.success = true)
    (hudata : env.userResp.data ≠ GoJSON.bad)
    (htmpl : env.templateResp.success = true)
    (htdata : env.templateResp.data ≠ GoJSON.bad)
    (hpersist : env.persistEnrichedOk = false) :
    (enrichAndPublish env req corr idem).trace
      = [Step.createNotif true, Step.createEvent "created",
         Step.updateStatus "enriching", Step.updateEnrichedPayload false] ∧
    (enrichAndPublish env req corr idem).row.map
        (fun n => (n.status, n.errorCode, n.errorMessage, n.failedAt, n.enrichedPayload))
      = some ("enriching", none, none, none, none) := by
  obtain ⟨gN, gU, gT, gC, cOk, cMsg, ⟨us, ud, ue, um⟩, ⟨ts, td, te, tm⟩,
    pOk, pubOk, pubMsg⟩ := env
  simp only at hcreate huser hudata htmpl htdata hpersist
  subst hcreate huser htmpl hpersist
  cases ud with
  | bad => exact absurd rfl hudata
  | nil =>
    cases td with
    | bad => exact absurd rfl htdata
    | nil =>
      simp [enrichAndPublish, zeroHTTPResponse, parseJSON, updateStatus,
            updateStatusWithTimestamp, coalesce]
    | ok b =>
      simp [enrichAndPublish, zeroHTTPResponse, parseJSON, updateStatus,
            updateStatusWithTimestamp, coalesce]
  | ok a =>
    cases td with
    | bad => exact absurd rfl htdata
    | nil =>
      simp [enrichAndPublish, zeroHTTPResponse, parseJSON, updateStatus,
            updateStatusWithTimestamp, coalesce]
    | ok b =>
      simp [enrichAndPublish, zeroHTTPResponse, parseJSON, updateStatus,
            updateStatusWithTimestamp, coalesce]

/-- C10 witness: the theorem applied to the concrete persist-failure run. -/
theorem persist_enriched_failure_is_silent_witness :
    (enrichAndPublish envPersistFail reqEmail "c10" "k10").trace
      = [Step.createNotif true, Step.createEvent "created",
         Step.updateStatus "enriching", Step.updateEnrichedPayload false] ∧
    (enrichAndPublish envPersistFail reqEmail "c10" "k10").row.map
        (fun n => (n.status, n.errorCode, n.errorMessage, n.failedAt, n.enrichedPayload))
      = some ("enriching", none, none, none, none) :=
  persist_enriched_failure_is_silent envPersistFail reqEmail "c10" "k10"
    (by decide) (by decide) (by decide) (by decide) (by decide) (by decide)

end NotifSys
